import Mathlib

/-!
Verification of the XSLT transformation wrapper in
`documentation/examples/py/iso-19139-to-dcat-ap.py`.

The script is embedded shallowly: Python `str` becomes Lean `String`
(a list of Unicode scalar values, matching CPython's code-point view),
Python `bytes` becomes `List Nat` (byte values), the filesystem becomes
an association list from paths to contents (most recent write first),
and the observable actions of a call (file writes, URL downloads, engine
invocations, `log.error` lines) are recorded in an event trace.  The
SaxonC engine is an external collaborator and is modelled as a record of
functions supplied by the environment.  Python exceptions are modelled
with `Except` over an explicit error type.
-/

namespace IsoDcat

/-! ## Python string and bytes primitives

`pyTake s n` models the Python slice `s[:n]` (first `n` code points).
`pyEncodeUtf8` / `pyDecodeUtf8` model `str.encode('utf-8')` and
`bytes.decode('utf-8')`: a strict UTF-8 codec that rejects invalid
leading bytes, truncated sequences, overlong encodings, surrogates and
values above U+10FFFF, exactly as CPython's strict `utf-8` codec does. -/

def pyTake (s : String) (n : Nat) : String := ⟨s.data.take n⟩

def pyLen (s : String) : Nat := s.data.length

/-- UTF-8 encoding of one Unicode scalar value, written with division and
remainder (for scalar values in the valid ranges this agrees with the
usual shift-and-mask presentation). -/
def utf8EncodeScalar (v : Nat) : List Nat :=
  if v < 0x80 then [v]
  else if v < 0x800 then [0xC0 + v / 64, 0x80 + v % 64]
  else if v < 0x10000 then [0xE0 + v / 4096, 0x80 + v / 64 % 64, 0x80 + v % 64]
  else [0xF0 + v / 262144, 0x80 + v / 4096 % 64, 0x80 + v / 64 % 64, 0x80 + v % 64]

/-- Continuation of a 2-byte sequence whose leading byte is `b0`. -/
def utf8Decode2 (b0 : Nat) : List Nat → Option (Nat × List Nat)
  | b1 :: bs1 =>
    if 0x80 ≤ b1 ∧ b1 < 0xC0 ∧ 0x80 ≤ (b0 - 0xC0) * 64 + (b1 - 0x80) then
      some ((b0 - 0xC0) * 64 + (b1 - 0x80), bs1)
    else none
  | [] => none

/-- Continuation of a 3-byte sequence whose leading byte is `b0`
(rejects overlong forms and surrogate values). -/
def utf8Decode3 (b0 : Nat) : List Nat → Option (Nat × List Nat)
  | b1 :: b2 :: bs2 =>
    if 0x80 ≤ b1 ∧ b1 < 0xC0 ∧ 0x80 ≤ b2 ∧ b2 < 0xC0 ∧
        0x800 ≤ (b0 - 0xE0) * 4096 + (b1 - 0x80) * 64 + (b2 - 0x80) ∧
        ((b0 - 0xE0) * 4096 + (b1 - 0x80) * 64 + (b2 - 0x80) < 0xD800 ∨
          0xDFFF < (b0 - 0xE0) * 4096 + (b1 - 0x80) * 64 + (b2 - 0x80)) then
      some ((b0 - 0xE0) * 4096 + (b1 - 0x80) * 64 + (b2 - 0x80), bs2)
    else none
  | _ => none

/-- Continuation of a 4-byte sequence whose leading byte is `b0`
(rejects overlong forms and values above U+10FFFF). -/
def utf8Decode4 (b0 : Nat) : List Nat → Option (Nat × List Nat)
  | b1 :: b2 :: b3 :: bs3 =>
    if 0x80 ≤ b1 ∧ b1 < 0xC0 ∧ 0x80 ≤ b2 ∧ b2 < 0xC0 ∧ 0x80 ≤ b3 ∧ b3 < 0xC0 ∧
        0x10000 ≤ (b0 - 0xF0) * 262144 + (b1 - 0x80) * 4096 + (b2 - 0x80) * 64 + (b3 - 0x80) ∧
        (b0 - 0xF0) * 262144 + (b1 - 0x80) * 4096 + (b2 - 0x80) * 64 + (b3 - 0x80) < 0x110000 then
      some ((b0 - 0xF0) * 262144 + (b1 - 0x80) * 4096 + (b2 - 0x80) * 64 + (b3 - 0x80), bs3)
    else none
  | _ => none

/-- Decode one scalar value from leading byte `b0` and remaining bytes. -/
def utf8DecodeStep (b0 : Nat) (bs : List Nat) : Option (Nat × List Nat) :=
  if b0 < 0x80 then some (b0, bs)
  else if b0 < 0xC0 then none
  else if b0 < 0xE0 then utf8Decode2 b0 bs
  else if b0 < 0xF0 then utf8Decode3 b0 bs
  else if b0 < 0xF8 then utf8Decode4 b0 bs
  else none

/-- Decode a whole byte list; the fuel argument (each step consumes at
least one byte, so `bs.length` is always enough) makes the recursion
structural. -/
def utf8DecodeLoop : Nat → List Nat → Option (List Nat)
  | _, [] => some []
  | 0, _ :: _ => none
  | fuel + 1, b0 :: bs =>
    (utf8DecodeStep b0 bs).bind fun p => (utf8DecodeLoop fuel p.2).map fun vs => p.1 :: vs

def utf8Decode (bs : List Nat) : Option (List Nat) := utf8DecodeLoop bs.length bs

def pyEncodeUtf8 (s : String) : List Nat :=
  s.data.flatMap fun c => utf8EncodeScalar c.toNat

def pyDecodeUtf8 (bs : List Nat) : Option String :=
  (utf8Decode bs).map fun vs => ⟨vs.map Char.ofNat⟩

lemma utf8DecodeStep_encodeScalar (v : Nat)
    (hv : v < 0xD800 ∨ (0xDFFF < v ∧ v < 0x110000)) (bs : List Nat) :
    ∃ b0 t, utf8EncodeScalar v = b0 :: t ∧
      utf8DecodeStep b0 (t ++ bs) = some (v, bs) := by
  by_cases h1 : v < 0x80
  · refine ⟨v, [], by rw [utf8EncodeScalar, if_pos h1], ?_⟩
    rw [List.nil_append]
    unfold utf8DecodeStep
    rw [if_pos h1]
  · by_cases h2 : v < 0x800
    · refine ⟨0xC0 + v / 64, [0x80 + v % 64], by rw [utf8EncodeScalar, if_neg h1, if_pos h2], ?_⟩
      rw [List.cons_append, List.nil_append]
      unfold utf8DecodeStep
      rw [if_neg (by omega), if_neg (by omega), if_pos (by omega : 0xC0 + v / 64 < 0xE0)]
      simp only [utf8Decode2]
      rw [if_pos (by omega)]
      have he : (0xC0 + v / 64 - 0xC0) * 64 + (0x80 + v % 64 - 0x80) = v := by omega
      rw [he]
    · by_cases h3 : v < 0x10000
      · refine ⟨0xE0 + v / 4096, [0x80 + v / 64 % 64, 0x80 + v % 64],
          by rw [utf8EncodeScalar, if_neg h1, if_neg h2, if_pos h3], ?_⟩
        rw [List.cons_append, List.cons_append, List.nil_append]
        unfold utf8DecodeStep
        rw [if_neg (by omega), if_neg (by omega), if_neg (by omega),
          if_pos (by omega : 0xE0 + v / 4096 < 0xF0)]
        simp only [utf8Decode3]
        rw [if_pos (by omega)]
        have he : (0xE0 + v / 4096 - 0xE0) * 4096 + (0x80 + v / 64 % 64 - 0x80) * 64 +
            (0x80 + v % 64 - 0x80) = v := by omega
        rw [he]
      · have h4 : v < 0x110000 := by omega
        refine ⟨0xF0 + v / 262144, [0x80 + v / 4096 % 64, 0x80 + v / 64 % 64, 0x80 + v % 64],
          by rw [utf8EncodeScalar, if_neg h1, if_neg h2, if_neg h3], ?_⟩
        rw [List.cons_append, List.cons_append, List.cons_append, List.nil_append]
        unfold utf8DecodeStep
        rw [if_neg (by omega), if_neg (by omega), if_neg (by omega), if_neg (by omega),
          if_pos (by omega : 0xF0 + v / 262144 < 0xF8)]
        simp only [utf8Decode4]
        rw [if_pos (by omega)]
        have he : (0xF0 + v / 262144 - 0xF0) * 262144 + (0x80 + v / 4096 % 64 - 0x80) * 4096 +
            (0x80 + v / 64 % 64 - 0x80) * 64 + (0x80 + v % 64 - 0x80) = v := by omega
        rw [he]

lemma utf8DecodeLoop_encodeFlat (l : List Char) : ∀ fuel : Nat,
    (l.flatMap fun c => utf8EncodeScalar c.toNat).length ≤ fuel →
    utf8DecodeLoop fuel (l.flatMap fun c => utf8EncodeScalar c.toNat) =
      some (l.map Char.toNat) := by
  induction l with
  | nil =>
    intro fuel _
    rw [List.flatMap_nil]
    cases fuel <;> rfl
  | cons c l ih =>
    intro fuel hf
    rw [List.flatMap_cons] at hf ⊢
    have hvalid : c.toNat < 0xD800 ∨ (0xDFFF < c.toNat ∧ c.toNat < 0x110000) := by
      rcases c.valid with h | ⟨ha, hb⟩
      · left
        exact UInt32.toNat_lt_of_lt (by decide) h
      · right
        exact ⟨UInt32.lt_toNat_of_lt (by decide) ha, UInt32.toNat_lt_of_lt (by decide) hb⟩
    obtain ⟨b0, t, he, hstep⟩ :=
      utf8DecodeStep_encodeScalar c.toNat hvalid (l.flatMap fun c => utf8EncodeScalar c.toNat)
    rw [he] at hf ⊢
    rw [List.cons_append]
    rw [List.cons_append, List.length_cons] at hf
    cases fuel with
    | zero => omega
    | succ fuel =>
      have hrest : (l.flatMap fun c => utf8EncodeScalar c.toNat).length ≤ fuel := by
        rw [List.length_append] at hf
        omega
      rw [utf8DecodeLoop, hstep]
      simp [ih fuel hrest]

/-- Strict UTF-8 round trip: decoding the encoding of any Python string
yields that string back. -/
theorem pyDecodeUtf8_encode (s : String) : pyDecodeUtf8 (pyEncodeUtf8 s) = some s := by
  unfold pyDecodeUtf8 pyEncodeUtf8 utf8Decode
  rw [utf8DecodeLoop_encodeFlat s.data _ (Nat.le_refl _)]
  rw [Option.map_some']
  simp only [List.map_map, Function.comp_def, Char.ofNat_toNat]
  simp

/-! ## Filesystem, events and errors -/

/-- A filesystem: paths mapped to contents, most recent write first. -/
abbrev FS := List (String × String)

def fsWrite (fs : FS) (p c : String) : FS := (p, c) :: fs

def fsRead (fs : FS) (p : String) : Option String :=
  (fs.find? fun q => q.1 == p).map fun q => q.2

/-- Model of `os.path.isfile`. -/
def isfile (fs : FS) (p : String) : Bool := (fsRead fs p).isSome

/-- Observable actions of the script, in the order they happen. -/
inductive Event where
  | download (url dest : String)
  | fileWrite (path content : String)
  | engineCall (stylesheet source cwd : String) (resolveExternal : Option Bool)
  | logError (msg : String)
deriving DecidableEq

/-- Python exceptions that the embedded code can raise. -/
inductive PyError where
  | unicodeDecodeError
  | fileNotFoundError (msg : String)
  | saxonApiError (msg : String)
  | runtimeError (msg : String)
  | unboundLocalError (name : String)
deriving DecidableEq

/-- Model of Python `str(e)` on the exceptions above (the decode-error
text stands for the message the CPython codec produces). -/
def errStr : PyError → String
  | .unicodeDecodeError => "utf-8 codec cannot decode bytes"
  | .fileNotFoundError msg => msg
  | .saxonApiError msg => msg
  | .runtimeError msg => msg
  | .unboundLocalError name =>
      "cannot access local variable " ++ name ++ " where it is not associated with a value"

/-! ## The SaxonC engine and its processors

`PySaxonProcessor` and `Xslt30Processor` keep the state the script sets
on them: the license flag, the working directory (`set_cwd`) and the
stylesheet parameters (`set_parameter`, most recent first).  The engine
itself is external native code; it is a record of functions of the
stylesheet path and source path: `run` models `transform_to_string`
(which either returns a string or raises `PySaxonApiError`),
`exceptionOccurred` models the `exception_occurred` flag afterwards, and
`errorMessages` the collection of reported error messages iterated by
the script's logging loop. -/

structure PySaxonProcessor where
  license : Bool
deriving DecidableEq

structure Xslt30Processor where
  cwd : String
  params : List (String × Bool)
deriving DecidableEq

def Xslt30Processor.new : Xslt30Processor := ⟨"", []⟩

def Xslt30Processor.setParameter (p : Xslt30Processor) (name : String) (value : Bool) :
    Xslt30Processor :=
  ⟨p.cwd, (name, value) :: p.params⟩

def Xslt30Processor.setCwd (p : Xslt30Processor) (dir : String) : Xslt30Processor :=
  ⟨dir, p.params⟩

def Xslt30Processor.getParam (p : Xslt30Processor) (name : String) : Option Bool :=
  (p.params.find? fun q => q.1 == name).map fun q => q.2

structure Engine where
  run : String → String → Except String String
  exceptionOccurred : String → String → Bool
  errorMessages : String → String → List String

/-! ## Path constants and helpers

`scriptDir` models `os.path.dirname(__file__)` and `processCwd` the
process working directory used by `os.path.abspath`; their concrete
values are irrelevant to every property proved below. -/

def scriptDir : String := "app"

def LOCAL_XSL_PATH : String := scriptDir ++ "/iso19139-to-geodcatap.xsl"

def processCwd : String := "cwd"

/-- Model of `str.startswith` (by code points; avoids the byte-position
machinery of `String.startsWith`, which the kernel cannot evaluate). -/
def strHasPrefix (s p : String) : Bool := p.data.isPrefixOf s.data

/-- Model of `os.path.abspath`. -/
def abspath (p : String) : String :=
  if strHasPrefix p "/" then p else processCwd ++ "/" ++ p

/-- Model of `os.path.dirname`: everything before the last slash (the
paths this development manipulates have no trailing slash). -/
def dirname (p : String) : String :=
  ⟨((p.data.reverse.dropWhile fun c => c != '/').drop 1).reverse⟩

def output_dir : String := scriptDir ++ "/output"

def inputRawPath : String := output_dir ++ "/input_raw.xml"

def outputFilePath : String := output_dir ++ "/transformed_output.rdf"

def errorLogPath : String := output_dir ++ "/transformation_error.log"

/-- Path of the fresh `NamedTemporaryFile` created by the n-th transform
call of the process (`delete=False`, suffix `.xml`). -/
def tempPath (n : Nat) : String := "/tmp/tmp" ++ toString n ++ ".xml"

/-- Does the event trace hold a write to path `p`? -/
def writesTo (evs : List Event) (p : String) : Bool :=
  evs.any fun ev =>
    match ev with
    | .fileWrite q _ => q == p
    | _ => false

/-- Does the event trace hold a download? -/
def downloads (evs : List Event) : Bool :=
  evs.any fun ev =>
    match ev with
    | .download _ _ => true
    | _ => false

/-! ## Construction (`XSLTTransformer.__init__`) -/

structure XSLTTransformer where
  xslt_path : String
  processor : PySaxonProcessor
  xslt_processor : Xslt30Processor
deriving DecidableEq

/-- The world the constructor runs in: a filesystem and the contents
served by the network at each URL (`urlretrieve`). -/
structure World where
  fs : FS
  urlContent : String → String

structure InitOut where
  world : World
  events : List Event
  result : Except PyError XSLTTransformer

def isUrl (s : String) : Bool :=
  strHasPrefix s "http://" || strHasPrefix s "https://"

/-- `XSLTTransformer.__init__`: for a URL reference, use the fixed local
cache path and download only when no file is there yet; for a local
path, fail with `FileNotFoundError` when the file is missing, else
resolve to an absolute path.  Then create the Saxon processor
(`license=False`) and an XSLT 3.0 processor. -/
def XSLTTransformer.init (w : World) (xslt_file : String) : InitOut :=
  if isUrl xslt_file then
    if isfile w.fs LOCAL_XSL_PATH then
      ⟨w, [], .ok ⟨LOCAL_XSL_PATH, ⟨false⟩, Xslt30Processor.new⟩⟩
    else
      ⟨⟨fsWrite w.fs LOCAL_XSL_PATH (w.urlContent xslt_file), w.urlContent⟩,
        [.download xslt_file LOCAL_XSL_PATH,
          .fileWrite LOCAL_XSL_PATH (w.urlContent xslt_file)],
        .ok ⟨LOCAL_XSL_PATH, ⟨false⟩, Xslt30Processor.new⟩⟩
  else
    if isfile w.fs xslt_file then
      ⟨w, [], .ok ⟨abspath xslt_file, ⟨false⟩, Xslt30Processor.new⟩⟩
    else
      ⟨w, [], .error (.fileNotFoundError ("The file " ++ xslt_file ++ " does not exist."))⟩

/-! ## The transform operation -/

/-- The argument of `transform`: Python text or bytes. -/
inductive XmlData where
  | text (s : String)
  | bytes (bs : List Nat)
deriving DecidableEq

/-- Mutable state a transform call touches besides the transformer
object itself: the filesystem and the counter naming the next
temporary file. -/
structure TState where
  fs : FS
  tempCounter : Nat
deriving DecidableEq

instance {ε α : Type} [DecidableEq ε] [DecidableEq α] : DecidableEq (Except ε α)
  | .error e1, .error e2 =>
    if h : e1 = e2 then .isTrue (by rw [h])
    else .isFalse fun hc => h (Except.error.inj hc)
  | .error _, .ok _ => .isFalse fun hc => Except.noConfusion hc
  | .ok _, .error _ => .isFalse fun hc => Except.noConfusion hc
  | .ok a1, .ok a2 =>
    if h : a1 = a2 then .isTrue (by rw [h])
    else .isFalse fun hc => h (Except.ok.inj hc)

structure TOut where
  tr : XSLTTransformer
  state : TState
  events : List Event
  result : Except PyError String
deriving DecidableEq

/-- The diagnostic record the `except` block writes: the error message
and the first 1000 characters of the input, with a literal `...`
appended unconditionally. -/
def errorLogContent (err : PyError) (xml_data : String) : String :=
  "Error: " ++ errStr err ++ "\n" ++ "XML content preview:\n" ++ pyTake xml_data 1000 ++ "..."

/-- The `except Exception as e` handler, reached with `output_dir`
already assigned (hence `xml_data` already text): `log.error` the
failure, write the diagnostic record to the fixed error-log path, then
re-raise the original exception. -/
def exceptText (err : PyError) (xml_data : String) (t : XSLTTransformer) (s : TState)
    (evs : List Event) : TOut :=
  ⟨t, ⟨fsWrite s.fs errorLogPath (errorLogContent err xml_data), s.tempCounter⟩,
    evs ++ [.logError ("Failed to transform XML content: " ++ errStr err),
      .fileWrite errorLogPath (errorLogContent err xml_data)],
    .error err⟩

/-- Body of `transform` after `xml_data` is text: write the raw input,
re-create both processors, set the `resolve-external` parameter and the
working directory, write the temporary source file, call the engine
twice (the first result is discarded), check the engine's error flag
(logging every reported message before raising), and on success write
and return the result.  Every failure is routed through `exceptText`. -/
def transformText (e : Engine) (t : XSLTTransformer) (xml_data : String) (s : TState) : TOut :=
  let fs1 := fsWrite s.fs inputRawPath xml_data
  let xp1 := (Xslt30Processor.new.setParameter "resolve-external" false).setCwd
    (dirname t.xslt_path)
  let temp_file_path := tempPath s.tempCounter
  let s2 : TState := ⟨fsWrite fs1 temp_file_path xml_data, s.tempCounter + 1⟩
  let t1 : XSLTTransformer := ⟨t.xslt_path, ⟨false⟩, xp1⟩
  let ev3 := [Event.fileWrite inputRawPath xml_data,
    Event.fileWrite temp_file_path xml_data,
    Event.engineCall t.xslt_path temp_file_path xp1.cwd (xp1.getParam "resolve-external")]
  match e.run t.xslt_path temp_file_path with
  | .error msg => exceptText (.saxonApiError msg) xml_data t1 s2 ev3
  | .ok _ =>
    let xp2 := xp1.setParameter "resolve-external" false
    let t2 : XSLTTransformer := ⟨t.xslt_path, ⟨false⟩, xp2⟩
    let ev4 := ev3 ++
      [Event.engineCall t.xslt_path temp_file_path xp2.cwd (xp2.getParam "resolve-external")]
    match e.run t.xslt_path temp_file_path with
    | .error msg => exceptText (.saxonApiError msg) xml_data t2 s2 ev4
    | .ok result =>
      if e.exceptionOccurred t.xslt_path temp_file_path then
        exceptText (.runtimeError "Error in XSLT transformation") xml_data t2 s2
          (ev4 ++ (e.errorMessages t.xslt_path temp_file_path).map
            fun m => .logError ("Error in XSLT transformation: " ++ m))
      else
        ⟨t2, ⟨fsWrite s2.fs outputFilePath result, s2.tempCounter⟩,
          ev4 ++ [.fileWrite outputFilePath result], .ok result⟩

/-- `XSLTTransformer.transform`.  A bytes argument is first decoded as
UTF-8 inside the `try` block; if that raises, the `except` handler
logs the failure and then itself raises `UnboundLocalError`, because it
reads the local variable `output_dir`, whose assignment (two lines
below the decode) never ran — so no diagnostic is written and the
original decode error is replaced. -/
def transform (e : Engine) (t : XSLTTransformer) (xml : XmlData) (s : TState) : TOut :=
  match xml with
  | .bytes bs =>
    match pyDecodeUtf8 bs with
    | none =>
      ⟨t, s, [.logError ("Failed to transform XML content: " ++ errStr .unicodeDecodeError)],
        .error (.unboundLocalError "output_dir")⟩
    | some str => transformText e t str s
  | .text str => transformText e t str s

/-- The single-call variant of the transform body, for comparison with
the reference behaviour: identical to `transformText` except that the
engine transform is performed exactly once. -/
def transformTextOnce (e : Engine) (t : XSLTTransformer) (xml_data : String) (s : TState) :
    TOut :=
  let fs1 := fsWrite s.fs inputRawPath xml_data
  let xp1 := (Xslt30Processor.new.setParameter "resolve-external" false).setCwd
    (dirname t.xslt_path)
  let temp_file_path := tempPath s.tempCounter
  let s2 : TState := ⟨fsWrite fs1 temp_file_path xml_data, s.tempCounter + 1⟩
  let t1 : XSLTTransformer := ⟨t.xslt_path, ⟨false⟩, xp1⟩
  let ev3 := [Event.fileWrite inputRawPath xml_data,
    Event.fileWrite temp_file_path xml_data,
    Event.engineCall t.xslt_path temp_file_path xp1.cwd (xp1.getParam "resolve-external")]
  match e.run t.xslt_path temp_file_path with
  | .error msg => exceptText (.saxonApiError msg) xml_data t1 s2 ev3
  | .ok result =>
    if e.exceptionOccurred t.xslt_path temp_file_path then
      exceptText (.runtimeError "Error in XSLT transformation") xml_data t1 s2
        (ev3 ++ (e.errorMessages t.xslt_path temp_file_path).map
          fun m => .logError ("Error in XSLT transformation: " ++ m))
    else
      ⟨t1, ⟨fsWrite s2.fs outputFilePath result, s2.tempCounter⟩,
        ev3 ++ [.fileWrite outputFilePath result], .ok result⟩

def transformOnce (e : Engine) (t : XSLTTransformer) (xml : XmlData) (s : TState) : TOut :=
  match xml with
  | .bytes bs =>
    match pyDecodeUtf8 bs with
    | none =>
      ⟨t, s, [.logError ("Failed to transform XML content: " ++ errStr .unicodeDecodeError)],
        .error (.unboundLocalError "output_dir")⟩
    | some str => transformTextOnce e t str s
  | .text str => transformTextOnce e t str s

/-! ## Basic lemmas about the model -/

lemma fsRead_fsWrite_self (fs : FS) (p c : String) :
    fsRead (fsWrite fs p c) p = some c := by
  simp [fsRead, fsWrite]

lemma fsRead_fsWrite_ne (fs : FS) (p c q : String) (h : p ≠ q) :
    fsRead (fsWrite fs p c) q = fsRead fs q := by
  simp [fsRead, fsWrite, List.find?_cons, h]

lemma tempPath_data_head (n : Nat) : (tempPath n).data.head? = some '/' := by
  show (("/tmp/tmp" ++ toString n) ++ ".xml").data.head? = some '/'
  rw [String.data_append, String.data_append]
  rw [show "/tmp/tmp".data = '/' :: "tmp/tmp".data from rfl]
  rfl

lemma tempPath_ne (n : Nat) (p : String) (hp : p.data.head? ≠ some '/') :
    tempPath n ≠ p := by
  intro h
  apply hp
  rw [← h]
  exact tempPath_data_head n

lemma tempPath_ne_inputRawPath (n : Nat) : tempPath n ≠ inputRawPath :=
  tempPath_ne n _ (by decide)

lemma tempPath_ne_errorLogPath (n : Nat) : tempPath n ≠ errorLogPath :=
  tempPath_ne n _ (by decide)

/-- Parameter/working-directory state of the script's XSLT processor at
the moment of the first engine call. -/
def xpConfigured (path : String) : Xslt30Processor :=
  (Xslt30Processor.new.setParameter "resolve-external" false).setCwd (dirname path)

/-- The same processor after the redundant second `set_parameter`. -/
def xpFinal (path : String) : Xslt30Processor :=
  (xpConfigured path).setParameter "resolve-external" false

lemma xpConfigured_cwd (path : String) : (xpConfigured path).cwd = dirname path := rfl

lemma xpConfigured_getParam (path : String) :
    (xpConfigured path).getParam "resolve-external" = some false := rfl

lemma xpFinal_cwd (path : String) : (xpFinal path).cwd = dirname path := rfl

lemma xpFinal_getParam (path : String) :
    (xpFinal path).getParam "resolve-external" = some false := rfl

/-! ## Canonical equations for the paths through `transformText` -/

lemma transformText_ok {e : Engine} {t : XSLTTransformer} {xml_data : String} {s : TState}
    {r : String} (hr : e.run t.xslt_path (tempPath s.tempCounter) = .ok r)
    (hx : e.exceptionOccurred t.xslt_path (tempPath s.tempCounter) = false) :
    transformText e t xml_data s =
      ⟨⟨t.xslt_path, ⟨false⟩, xpFinal t.xslt_path⟩,
        ⟨fsWrite (fsWrite (fsWrite s.fs inputRawPath xml_data) (tempPath s.tempCounter) xml_data)
          outputFilePath r, s.tempCounter + 1⟩,
        [.fileWrite inputRawPath xml_data, .fileWrite (tempPath s.tempCounter) xml_data,
          .engineCall t.xslt_path (tempPath s.tempCounter) (dirname t.xslt_path) (some false),
          .engineCall t.xslt_path (tempPath s.tempCounter) (dirname t.xslt_path) (some false),
          .fileWrite outputFilePath r],
        .ok r⟩ := by
  unfold transformText
  simp only [hr, hx]
  simp [xpFinal, xpConfigured, Xslt30Processor.new, Xslt30Processor.setParameter,
    Xslt30Processor.setCwd, Xslt30Processor.getParam]

lemma transformText_raiseFirst {e : Engine} {t : XSLTTransformer} {xml_data : String}
    {s : TState} {msg : String}
    (hr : e.run t.xslt_path (tempPath s.tempCounter) = .error msg) :
    transformText e t xml_data s =
      ⟨⟨t.xslt_path, ⟨false⟩, xpConfigured t.xslt_path⟩,
        ⟨fsWrite (fsWrite (fsWrite s.fs inputRawPath xml_data) (tempPath s.tempCounter) xml_data)
          errorLogPath (errorLogContent (.saxonApiError msg) xml_data), s.tempCounter + 1⟩,
        [.fileWrite inputRawPath xml_data, .fileWrite (tempPath s.tempCounter) xml_data,
          .engineCall t.xslt_path (tempPath s.tempCounter) (dirname t.xslt_path) (some false),
          .logError ("Failed to transform XML content: " ++ errStr (.saxonApiError msg)),
          .fileWrite errorLogPath (errorLogContent (.saxonApiError msg) xml_data)],
        .error (.saxonApiError msg)⟩ := by
  unfold transformText
  simp only [hr]
  simp [exceptText, xpConfigured, Xslt30Processor.new, Xslt30Processor.setParameter,
    Xslt30Processor.setCwd, Xslt30Processor.getParam]

lemma transformText_engineFlag {e : Engine} {t : XSLTTransformer} {xml_data : String}
    {s : TState} {r : String}
    (hr : e.run t.xslt_path (tempPath s.tempCounter) = .ok r)
    (hx : e.exceptionOccurred t.xslt_path (tempPath s.tempCounter) = true) :
    transformText e t xml_data s =
      ⟨⟨t.xslt_path, ⟨false⟩, xpFinal t.xslt_path⟩,
        ⟨fsWrite (fsWrite (fsWrite s.fs inputRawPath xml_data) (tempPath s.tempCounter) xml_data)
          errorLogPath (errorLogContent (.runtimeError "Error in XSLT transformation") xml_data),
          s.tempCounter + 1⟩,
        ([.fileWrite inputRawPath xml_data, .fileWrite (tempPath s.tempCounter) xml_data,
          .engineCall t.xslt_path (tempPath s.tempCounter) (dirname t.xslt_path) (some false),
          .engineCall t.xslt_path (tempPath s.tempCounter) (dirname t.xslt_path) (some false)] ++
          (e.errorMessages t.xslt_path (tempPath s.tempCounter)).map
            (fun m => .logError ("Error in XSLT transformation: " ++ m))) ++
          [.logError ("Failed to transform XML content: " ++
              errStr (.runtimeError "Error in XSLT transformation")),
            .fileWrite errorLogPath
              (errorLogContent (.runtimeError "Error in XSLT transformation") xml_data)],
        .error (.runtimeError "Error in XSLT transformation")⟩ := by
  unfold transformText
  simp only [hr, hx]
  simp [exceptText, xpFinal, xpConfigured, Xslt30Processor.new, Xslt30Processor.setParameter,
    Xslt30Processor.setCwd, Xslt30Processor.getParam]

lemma str_beq_false {a b : String} (h : a ≠ b) : (a == b) = false :=
  beq_eq_false_iff_ne.mpr h

/-! ## Concrete instances used by witnesses and counterexamples -/

/-- An engine that succeeds everywhere, producing output that names the
source file, and reports no errors. -/
def engineOkW : Engine :=
  ⟨fun _ src => .ok ("RDF:" ++ src), fun _ _ => false, fun _ _ => []⟩

/-- An engine whose runs return but that reports errors through its
`exception_occurred` flag and error messages. -/
def engineFlagW : Engine :=
  ⟨fun _ _ => .ok "", fun _ _ => true, fun _ _ => ["bad template", "bad select"]⟩

/-- An engine whose run raises `PySaxonApiError`. -/
def engineRaiseW : Engine :=
  ⟨fun _ _ => .error "SXXP0003 malformed source", fun _ _ => false, fun _ _ => []⟩

def trW : XSLTTransformer := ⟨"sty/a.xsl", ⟨false⟩, Xslt30Processor.new⟩

def emptyState : TState := ⟨[], 0⟩

def worldW : World := ⟨[("sty/a.xsl", "XSLSOURCE")], fun _ => "XSLFROMURL"⟩

def emptyWorldW : World := ⟨[], fun _ => "XSLFROMURL"⟩

/-! ## Claim C1 -/

/-- Modelled from the spec: the stylesheet files of this repository are
not part of the embedded example script, so what the engine produces on
them is taken from the spec — for well-formed XML input the engine run
on the resolved stylesheet succeeds with non-empty result text and
reports no errors. -/
def WellFormedRun (e : Engine) (stylesheet source r : String) : Prop :=
  e.run stylesheet source = .ok r ∧ r ≠ "" ∧ e.exceptionOccurred stylesheet source = false

/-- C1: for a Transformer constructed from a valid local stylesheet path
and well-formed XML input, `transform` returns the non-empty result
text, writes that same text to `transformed_output.rdf`, writes the
input to `input_raw.xml`, and does not write
`transformation_error.log`. -/
theorem C1_success_contract (w : World) (p : String) (e : Engine) (t : XSLTTransformer)
    (str : String) (s : TState) (r : String)
    (_hinit : (XSLTTransformer.init w p).result = .ok t)
    (h : WellFormedRun e t.xslt_path (tempPath s.tempCounter) r) :
    (transform e t (.text str) s).result = .ok r ∧
    r ≠ "" ∧
    fsRead (transform e t (.text str) s).state.fs outputFilePath = some r ∧
    fsRead (transform e t (.text str) s).state.fs inputRawPath = some str ∧
    writesTo (transform e t (.text str) s).events errorLogPath = false ∧
    writesTo (transform e t (.text str) s).events inputRawPath = true ∧
    writesTo (transform e t (.text str) s).events outputFilePath = true := by
  obtain ⟨hr, hne, hx⟩ := h
  have htr : transform e t (.text str) s = transformText e t str s := rfl
  rw [htr, transformText_ok hr hx]
  have hb1 : (tempPath s.tempCounter == errorLogPath) = false :=
    str_beq_false (tempPath_ne_errorLogPath _)
  have d1 : (inputRawPath == errorLogPath) = false := by decide
  have d2 : (outputFilePath == errorLogPath) = false := by decide
  refine ⟨rfl, hne, ?_, ?_, ?_, ?_, ?_⟩
  · exact fsRead_fsWrite_self _ _ _
  · show fsRead (fsWrite _ outputFilePath r) inputRawPath = some str
    rw [fsRead_fsWrite_ne _ _ _ _ (by decide),
      fsRead_fsWrite_ne _ _ _ _ (tempPath_ne_inputRawPath _)]
    exact fsRead_fsWrite_self _ _ _
  · simp [writesTo, hb1, d1, d2]
  · simp [writesTo]
  · simp [writesTo]

/-- C1 witness: the contract evaluated for a concrete world, engine and
input. -/
theorem C1_success_contract_witness :
    (XSLTTransformer.init worldW "sty/a.xsl").result =
        .ok ⟨"cwd/sty/a.xsl", ⟨false⟩, Xslt30Processor.new⟩ ∧
    WellFormedRun engineOkW "cwd/sty/a.xsl" (tempPath 0) "RDF:/tmp/tmp0.xml" ∧
    ((transform engineOkW ⟨"cwd/sty/a.xsl", ⟨false⟩, Xslt30Processor.new⟩ (.text "<x/>")
        emptyState).result = .ok "RDF:/tmp/tmp0.xml" ∧
      "RDF:/tmp/tmp0.xml" ≠ "" ∧
      fsRead (transform engineOkW ⟨"cwd/sty/a.xsl", ⟨false⟩, Xslt30Processor.new⟩ (.text "<x/>")
        emptyState).state.fs outputFilePath = some "RDF:/tmp/tmp0.xml" ∧
      fsRead (transform engineOkW ⟨"cwd/sty/a.xsl", ⟨false⟩, Xslt30Processor.new⟩ (.text "<x/>")
        emptyState).state.fs inputRawPath = some "<x/>" ∧
      writesTo (transform engineOkW ⟨"cwd/sty/a.xsl", ⟨false⟩, Xslt30Processor.new⟩ (.text "<x/>")
        emptyState).events errorLogPath = false ∧
      writesTo (transform engineOkW ⟨"cwd/sty/a.xsl", ⟨false⟩, Xslt30Processor.new⟩ (.text "<x/>")
        emptyState).events inputRawPath = true ∧
      writesTo (transform engineOkW ⟨"cwd/sty/a.xsl", ⟨false⟩, Xslt30Processor.new⟩ (.text "<x/>")
        emptyState).events outputFilePath = true) :=
  ⟨by decide, ⟨by decide, by decide, by decide⟩,
    C1_success_contract worldW "sty/a.xsl" engineOkW _ "<x/>" emptyState _ (by decide)
      ⟨by decide, by decide, by decide⟩⟩

/-! ## Claim C4 -/

/-- C4: when the engine reports an internal transformation error,
`transform` fails with the `TransformationError`
(`RuntimeError("Error in XSLT transformation")`), and every error
message reported by the engine is logged before the failure propagates
to the caller. -/
theorem C4_engine_errors_logged (e : Engine) (t : XSLTTransformer) (str : String) (s : TState)
    (r : String)
    (hr : e.run t.xslt_path (tempPath s.tempCounter) = .ok r)
    (hx : e.exceptionOccurred t.xslt_path (tempPath s.tempCounter) = true) :
    (transform e t (.text str) s).result =
        .error (.runtimeError "Error in XSLT transformation") ∧
    ∀ m ∈ e.errorMessages t.xslt_path (tempPath s.tempCounter),
      Event.logError ("Error in XSLT transformation: " ++ m) ∈
        (transform e t (.text str) s).events := by
  have htr : transform e t (.text str) s = transformText e t str s := rfl
  rw [htr, transformText_engineFlag hr hx]
  refine ⟨rfl, ?_⟩
  intro m hm
  apply List.mem_append_left
  apply List.mem_append_right
  exact List.mem_map_of_mem _ hm

/-- C4 witness: a concrete engine reporting two error messages; both are
logged and the call fails with the transformation error. -/
theorem C4_engine_errors_logged_witness :
    engineFlagW.run trW.xslt_path (tempPath emptyState.tempCounter) = .ok "" ∧
    engineFlagW.exceptionOccurred trW.xslt_path (tempPath emptyState.tempCounter) = true ∧
    (transform engineFlagW trW (.text "<x/>") emptyState).result =
        .error (.runtimeError "Error in XSLT transformation") ∧
    Event.logError ("Error in XSLT transformation: " ++ "bad template") ∈
      (transform engineFlagW trW (.text "<x/>") emptyState).events ∧
    Event.logError ("Error in XSLT transformation: " ++ "bad select") ∈
      (transform engineFlagW trW (.text "<x/>") emptyState).events :=
  ⟨by decide, by decide,
    (C4_engine_errors_logged engineFlagW trW "<x/>" emptyState "" (by decide) (by decide)).1,
    (C4_engine_errors_logged engineFlagW trW "<x/>" emptyState "" (by decide) (by decide)).2
      "bad template" (by decide),
    (C4_engine_errors_logged engineFlagW trW "<x/>" emptyState "" (by decide) (by decide)).2
      "bad select" (by decide)⟩

/-! ## Claim C2 -/

/-- C2 (code bug): on bytes input that is not valid UTF-8 the decode
raises inside the `try` block before `output_dir` is assigned; the
`except` handler logs and then itself raises `UnboundLocalError` when
it reads `output_dir`, so no diagnostic record is written anywhere and
the original `UnicodeDecodeError` is replaced rather than re-raised. -/
theorem C2_decode_failure_replaces_error :
    pyDecodeUtf8 [0xFF] = none ∧
    transform engineOkW trW (.bytes [0xFF]) emptyState =
      ⟨trW, emptyState,
        [.logError ("Failed to transform XML content: " ++ errStr .unicodeDecodeError)],
        .error (.unboundLocalError "output_dir")⟩ ∧
    (transform engineOkW trW (.bytes [0xFF]) emptyState).result ≠
      .error .unicodeDecodeError ∧
    fsRead (transform engineOkW trW (.bytes [0xFF]) emptyState).state.fs errorLogPath = none ∧
    writesTo (transform engineOkW trW (.bytes [0xFF]) emptyState).events errorLogPath =
      false := by
  decide

/-! ## Claim C3 -/

/-- C3 counterexample: a failing `transform` call (invalid UTF-8 bytes)
after which `transformation_error.log` does not exist at all, against
the claim that whenever `transform` fails the error log contains the
error text and input prefix. -/
theorem C3_counterexample_no_log_on_decode_failure :
    (transform engineOkW trW (.bytes [0xFF]) emptyState).result =
      .error (.unboundLocalError "output_dir") ∧
    fsRead (transform engineOkW trW (.bytes [0xFF]) emptyState).state.fs errorLogPath =
      none := by
  decide

/-- The text the input decodes to, when it does: the identity on text
input, strict UTF-8 decoding on bytes input. -/
def decodedText : XmlData → Option String
  | .text s => some s
  | .bytes bs => pyDecodeUtf8 bs

lemma transform_eq_transformText {e : Engine} {t : XSLTTransformer} {xml : XmlData}
    {str : String} {s : TState} (hdec : decodedText xml = some str) :
    transform e t xml s = transformText e t str s := by
  cases xml with
  | text s0 =>
    simp only [decodedText, Option.some.injEq] at hdec
    rw [← hdec]
    rfl
  | bytes bs =>
    simp only [decodedText] at hdec
    simp [transform, hdec]

lemma pyTake_of_le {s : String} {n : Nat} (h : pyLen s ≤ n) : pyTake s n = s := by
  unfold pyTake
  unfold pyLen at h
  rw [List.take_of_length_le h]

/-- C3 (amended): whenever `transform` fails on input that decoded to
text (text input, or bytes that are valid UTF-8), the error log
contains the error text followed by the input preview: the first 1000
characters when the input is longer, the full input text otherwise. -/
theorem C3_error_log_content (e : Engine) (t : XSLTTransformer) (xml : XmlData) (str : String)
    (s : TState) (err : PyError)
    (hdec : decodedText xml = some str)
    (hres : (transform e t xml s).result = .error err) :
    fsRead (transform e t xml s).state.fs errorLogPath = some (errorLogContent err str) ∧
    errorLogContent err str =
      "Error: " ++ errStr err ++ "\n" ++ "XML content preview:\n" ++ pyTake str 1000 ++ "..." ∧
    (pyLen str ≤ 1000 → pyTake str 1000 = str) := by
  rw [transform_eq_transformText hdec] at hres ⊢
  refine ⟨?_, rfl, fun h => pyTake_of_le h⟩
  rcases hr : e.run t.xslt_path (tempPath s.tempCounter) with msg | r
  · rw [transformText_raiseFirst hr] at hres ⊢
    cases Except.error.inj hres
    exact fsRead_fsWrite_self _ _ _
  · rcases hx : e.exceptionOccurred t.xslt_path (tempPath s.tempCounter) with _ | _
    · rw [transformText_ok hr hx] at hres
      exact Except.noConfusion hres
    · rw [transformText_engineFlag hr hx] at hres ⊢
      cases Except.error.inj hres
      exact fsRead_fsWrite_self _ _ _

/-- C3 witness: the amended statement evaluated for a concrete failing
run (engine raise on malformed XML). -/
theorem C3_error_log_content_witness :
    decodedText (.text "<open>") = some "<open>" ∧
    (transform engineRaiseW trW (.text "<open>") emptyState).result =
      .error (.saxonApiError "SXXP0003 malformed source") ∧
    (fsRead (transform engineRaiseW trW (.text "<open>") emptyState).state.fs errorLogPath =
        some (errorLogContent (.saxonApiError "SXXP0003 malformed source") "<open>") ∧
      errorLogContent (.saxonApiError "SXXP0003 malformed source") "<open>" =
        "Error: " ++ errStr (.saxonApiError "SXXP0003 malformed source") ++ "\n" ++
          "XML content preview:\n" ++ pyTake "<open>" 1000 ++ "..." ∧
      (pyLen "<open>" ≤ 1000 → pyTake "<open>" 1000 = "<open>")) :=
  ⟨by decide, by decide,
    C3_error_log_content engineRaiseW trW (.text "<open>") "<open>" emptyState
      (.saxonApiError "SXXP0003 malformed source") (by decide) (by decide)⟩

/-! ## Claim C5 -/

/-- C5 counterexample: a Transformer fresh from construction has an
XSLT processor with the default working directory (not the resolved
stylesheet's directory) and with no `resolve-external` parameter set,
against the claim that construction binds the engine to the
stylesheet's directory and disables external resolution. -/
theorem C5_counterexample_construction_unconfigured :
    (XSLTTransformer.init worldW "sty/a.xsl").result =
      .ok ⟨"cwd/sty/a.xsl", ⟨false⟩, Xslt30Processor.new⟩ ∧
    Xslt30Processor.new.cwd ≠ dirname "cwd/sty/a.xsl" ∧
    Xslt30Processor.new.getParam "resolve-external" ≠ some false := by
  decide

/-- C5 (amended): construction creates the processors unconfigured (the
XSLT processor it stores is the fresh default one); the binding of the
working directory to the resolved stylesheet's directory and the
disabling of external resolution happen inside each `transform` call,
before any engine invocation: every engine call of any transform trace
carries the stylesheet's directory as cwd and `resolve-external` set to
false. -/
theorem C5_engine_configured_per_call :
    (∀ w p t, (XSLTTransformer.init w p).result = .ok t →
      t.xslt_processor = Xslt30Processor.new ∧ t.processor = ⟨false⟩) ∧
    (∀ (e : Engine) (t : XSLTTransformer) (xml : XmlData) (s : TState),
      ((transform e t xml s).events.all fun ev =>
        match ev with
        | .engineCall _ _ c pb => c == dirname t.xslt_path && pb == some false
        | _ => true) = true) := by
  constructor
  · intro w p t h
    unfold XSLTTransformer.init at h
    split at h
    · split at h
      · cases Except.ok.inj h
        exact ⟨rfl, rfl⟩
      · cases Except.ok.inj h
        exact ⟨rfl, rfl⟩
    · split at h
      · cases Except.ok.inj h
        exact ⟨rfl, rfl⟩
      · exact Except.noConfusion h
  · have aux : ∀ (e : Engine) (t : XSLTTransformer) (str : String) (s : TState),
        ((transformText e t str s).events.all fun ev =>
          match ev with
          | .engineCall _ _ c pb => c == dirname t.xslt_path && pb == some false
          | _ => true) = true := by
      intro e t str s
      rcases hr : e.run t.xslt_path (tempPath s.tempCounter) with msg | r
      · rw [transformText_raiseFirst hr]
        simp
      · rcases hx : e.exceptionOccurred t.xslt_path (tempPath s.tempCounter) with _ | _
        · rw [transformText_ok hr hx]
          simp
        · rw [transformText_engineFlag hr hx]
          simp [List.all_append]
    intro e t xml s
    cases xml with
    | text str => exact aux e t str s
    | bytes bs =>
      cases hd : pyDecodeUtf8 bs with
      | none => simp [transform, hd]
      | some str =>
        rw [transform_eq_transformText (by simpa [decodedText] using hd)]
        exact aux e t str s

/-- C5 witness: both halves of the amended statement at concrete
inputs. -/
theorem C5_engine_configured_per_call_witness :
    (XSLTTransformer.init worldW "sty/a.xsl").result =
      .ok ⟨"cwd/sty/a.xsl", ⟨false⟩, Xslt30Processor.new⟩ ∧
    (⟨"cwd/sty/a.xsl", ⟨false⟩, Xslt30Processor.new⟩ : XSLTTransformer).xslt_processor =
      Xslt30Processor.new ∧
    ((transform engineOkW trW (.text "<x/>") emptyState).events.all fun ev =>
      match ev with
      | .engineCall _ _ c pb => c == dirname trW.xslt_path && pb == some false
      | _ => true) = true :=
  ⟨by decide,
    (C5_engine_configured_per_call.1 worldW "sty/a.xsl" _ (by decide)).1,
    C5_engine_configured_per_call.2 engineOkW trW (.text "<x/>") emptyState⟩

/-! ## Claim C6 -/

/-- C6: for a stylesheet given as a remote URL, construction uses the
fixed cache path and downloads only when no file exists there; a second
construction with the cache file in place performs no network fetch and
resolves to the same stylesheet file. -/
theorem C6_url_cache_idempotent (w : World) (url : String)
    (hu : isUrl url = true) (hn : isfile w.fs LOCAL_XSL_PATH = false) :
    (XSLTTransformer.init w url).events =
      [.download url LOCAL_XSL_PATH, .fileWrite LOCAL_XSL_PATH (w.urlContent url)] ∧
    fsRead (XSLTTransformer.init w url).world.fs LOCAL_XSL_PATH = some (w.urlContent url) ∧
    (XSLTTransformer.init w url).result =
      .ok ⟨LOCAL_XSL_PATH, ⟨false⟩, Xslt30Processor.new⟩ ∧
    (XSLTTransformer.init (XSLTTransformer.init w url).world url).events = [] ∧
    downloads (XSLTTransformer.init (XSLTTransformer.init w url).world url).events = false ∧
    (XSLTTransformer.init (XSLTTransformer.init w url).world url).world.fs =
      (XSLTTransformer.init w url).world.fs ∧
    (XSLTTransformer.init (XSLTTransformer.init w url).world url).result =
      (XSLTTransformer.init w url).result := by
  have h1 : XSLTTransformer.init w url =
      ⟨⟨fsWrite w.fs LOCAL_XSL_PATH (w.urlContent url), w.urlContent⟩,
        [.download url LOCAL_XSL_PATH, .fileWrite LOCAL_XSL_PATH (w.urlContent url)],
        .ok ⟨LOCAL_XSL_PATH, ⟨false⟩, Xslt30Processor.new⟩⟩ := by
    unfold XSLTTransformer.init
    rw [hu, if_pos rfl, hn]
    rfl
  have h2 : isfile (fsWrite w.fs LOCAL_XSL_PATH (w.urlContent url)) LOCAL_XSL_PATH = true := by
    simp [isfile, fsRead_fsWrite_self]
  rw [h1]
  have h3 : XSLTTransformer.init
      ⟨fsWrite w.fs LOCAL_XSL_PATH (w.urlContent url), w.urlContent⟩ url =
      ⟨⟨fsWrite w.fs LOCAL_XSL_PATH (w.urlContent url), w.urlContent⟩, [],
        .ok ⟨LOCAL_XSL_PATH, ⟨false⟩, Xslt30Processor.new⟩⟩ := by
    unfold XSLTTransformer.init
    rw [hu, if_pos rfl]
    rw [show isfile (⟨fsWrite w.fs LOCAL_XSL_PATH (w.urlContent url), w.urlContent⟩ :
      World).fs LOCAL_XSL_PATH = true from h2]
    rfl
  rw [h3]
  exact ⟨rfl, fsRead_fsWrite_self _ _ _, rfl, rfl, rfl, rfl, rfl⟩

/-- C6 witness: the cache behaviour evaluated from an empty filesystem
and a concrete URL. -/
theorem C6_url_cache_idempotent_witness :
    isUrl "https://host/iso.xsl" = true ∧
    isfile emptyWorldW.fs LOCAL_XSL_PATH = false ∧
    ((XSLTTransformer.init emptyWorldW "https://host/iso.xsl").events =
      [.download "https://host/iso.xsl" LOCAL_XSL_PATH,
        .fileWrite LOCAL_XSL_PATH (emptyWorldW.urlContent "https://host/iso.xsl")] ∧
    fsRead (XSLTTransformer.init emptyWorldW "https://host/iso.xsl").world.fs LOCAL_XSL_PATH =
      some (emptyWorldW.urlContent "https://host/iso.xsl") ∧
    (XSLTTransformer.init emptyWorldW "https://host/iso.xsl").result =
      .ok ⟨LOCAL_XSL_PATH, ⟨false⟩, Xslt30Processor.new⟩ ∧
    (XSLTTransformer.init (XSLTTransformer.init emptyWorldW "https://host/iso.xsl").world
      "https://host/iso.xsl").events = [] ∧
    downloads (XSLTTransformer.init
      (XSLTTransformer.init emptyWorldW "https://host/iso.xsl").world
      "https://host/iso.xsl").events = false ∧
    (XSLTTransformer.init (XSLTTransformer.init emptyWorldW "https://host/iso.xsl").world
        "https://host/iso.xsl").world.fs =
      (XSLTTransformer.init emptyWorldW "https://host/iso.xsl").world.fs ∧
    (XSLTTransformer.init (XSLTTransformer.init emptyWorldW "https://host/iso.xsl").world
        "https://host/iso.xsl").result =
      (XSLTTransformer.init emptyWorldW "https://host/iso.xsl").result) :=
  ⟨by decide, by decide,
    C6_url_cache_idempotent emptyWorldW "https://host/iso.xsl" (by decide) (by decide)⟩

/-! ## Claim C7 -/

/-- C7: constructing with a local stylesheet path that does not exist
fails with `FileNotFoundError` and performs neither download nor any
other effect; with an existing path, construction succeeds with the
path resolved to an absolute path. -/
theorem C7_local_not_found (w : World) (p : String) (hp : isUrl p = false) :
    (isfile w.fs p = false →
      XSLTTransformer.init w p =
        ⟨w, [], .error (.fileNotFoundError ("The file " ++ p ++ " does not exist."))⟩) ∧
    (isfile w.fs p = true →
      XSLTTransformer.init w p = ⟨w, [], .ok ⟨abspath p, ⟨false⟩, Xslt30Processor.new⟩⟩) := by
  constructor
  · intro hn
    unfold XSLTTransformer.init
    rw [hp, if_neg (by simp), hn]
    rfl
  · intro hy
    unfold XSLTTransformer.init
    rw [hp, if_neg (by simp), hy]
    rfl

/-- C7 witness: both branches evaluated on concrete worlds and paths. -/
theorem C7_local_not_found_witness :
    isUrl "sty/a.xsl" = false ∧
    isfile emptyWorldW.fs "sty/a.xsl" = false ∧
    isfile worldW.fs "sty/a.xsl" = true ∧
    XSLTTransformer.init emptyWorldW "sty/a.xsl" =
      ⟨emptyWorldW, [],
        .error (.fileNotFoundError ("The file " ++ "sty/a.xsl" ++ " does not exist."))⟩ ∧
    XSLTTransformer.init worldW "sty/a.xsl" =
      ⟨worldW, [], .ok ⟨abspath "sty/a.xsl", ⟨false⟩, Xslt30Processor.new⟩⟩ :=
  ⟨by decide, by decide, by decide,
    (C7_local_not_found emptyWorldW "sty/a.xsl" (by decide)).1 (by decide),
    (C7_local_not_found worldW "sty/a.xsl" (by decide)).2 (by decide)⟩

/-! ## Claim C8 -/

/-- C8: supplying the UTF-8 encoding of a text as bytes behaves
identically to supplying the text itself: the whole outcome (returned
transformer state, filesystem, event trace, and result) coincides. -/
theorem C8_bytes_text_equivalence (e : Engine) (t : XSLTTransformer) (s : TState)
    (str : String) :
    transform e t (.bytes (pyEncodeUtf8 str)) s = transform e t (.text str) s := by
  show (match pyDecodeUtf8 (pyEncodeUtf8 str) with
    | none =>
      (⟨t, s, [.logError ("Failed to transform XML content: " ++ errStr .unicodeDecodeError)],
        .error (.unboundLocalError "output_dir")⟩ : TOut)
    | some str2 => transformText e t str2 s) = transformText e t str s
  rw [pyDecodeUtf8_encode]

/-! ## Claim C9 -/

/-- The engine invocations recorded in a trace. -/
def engineCallEvents (evs : List Event) : List Event :=
  evs.filter fun ev =>
    match ev with
    | .engineCall _ _ _ _ => true
    | _ => false

lemma engineCallEvents_append (a b : List Event) :
    engineCallEvents (a ++ b) = engineCallEvents a ++ engineCallEvents b := by
  simp [engineCallEvents, List.filter_append]

lemma engineCallEvents_map_logError (msgs : List String) (f : String → String) :
    engineCallEvents (msgs.map fun m => Event.logError (f m)) = [] := by
  induction msgs with
  | nil => rfl
  | cons m ms ih =>
    rw [List.map_cons]
    rw [show engineCallEvents (Event.logError (f m) :: (ms.map fun m => Event.logError (f m))) =
      engineCallEvents (ms.map fun m => Event.logError (f m)) from rfl]
    exact ih

/-- C9: the reference transform invokes the engine twice in immediate
succession with the same stylesheet, source and configuration, the
first result is discarded, and the whole call is equivalent (same
returned value, same final state) to the variant that performs the
transform exactly once. -/
theorem C9_double_invocation_redundant :
    (∀ (e : Engine) (t : XSLTTransformer) (xml : XmlData) (s : TState),
      (transform e t xml s).result = (transformOnce e t xml s).result ∧
      (transform e t xml s).state = (transformOnce e t xml s).state) ∧
    (∀ (e : Engine) (t : XSLTTransformer) (str : String) (s : TState) (r : String),
      e.run t.xslt_path (tempPath s.tempCounter) = .ok r →
      engineCallEvents (transform e t (.text str) s).events =
        [.engineCall t.xslt_path (tempPath s.tempCounter) (dirname t.xslt_path) (some false),
          .engineCall t.xslt_path (tempPath s.tempCounter) (dirname t.xslt_path) (some false)] ∧
      engineCallEvents (transformOnce e t (.text str) s).events =
        [.engineCall t.xslt_path (tempPath s.tempCounter) (dirname t.xslt_path)
          (some false)]) := by
  have aux : ∀ (e : Engine) (t : XSLTTransformer) (str : String) (s : TState),
      (transformText e t str s).result = (transformTextOnce e t str s).result ∧
      (transformText e t str s).state = (transformTextOnce e t str s).state := by
    intro e t str s
    unfold transformText transformTextOnce
    rcases hr : e.run t.xslt_path (tempPath s.tempCounter) with msg | r
    · simp [hr, exceptText]
    · rcases hx : e.exceptionOccurred t.xslt_path (tempPath s.tempCounter) with _ | _ <;>
        simp [hr, hx, exceptText]
  constructor
  · intro e t xml s
    cases xml with
    | text str => exact aux e t str s
    | bytes bs =>
      cases hd : pyDecodeUtf8 bs with
      | none => simp [transform, transformOnce, hd]
      | some str =>
        have h1 : transform e t (.bytes bs) s = transformText e t str s := by
          simp [transform, hd]
        have h2 : transformOnce e t (.bytes bs) s = transformTextOnce e t str s := by
          simp [transformOnce, hd]
        rw [h1, h2]
        exact aux e t str s
  · intro e t str s r hr
    constructor
    · rcases hx : e.exceptionOccurred t.xslt_path (tempPath s.tempCounter) with _ | _
      · rw [show transform e t (.text str) s = transformText e t str s from rfl,
          transformText_ok hr hx]
        simp [engineCallEvents, List.filter_cons]
      · rw [show transform e t (.text str) s = transformText e t str s from rfl,
          transformText_engineFlag hr hx]
        rw [engineCallEvents_append, engineCallEvents_append, engineCallEvents_map_logError]
        simp [engineCallEvents, List.filter_cons]
    · rcases hx : e.exceptionOccurred t.xslt_path (tempPath s.tempCounter) with _ | _
      · show engineCallEvents (transformTextOnce e t str s).events = _
        unfold transformTextOnce
        simp only [hr, hx]
        simp [engineCallEvents, List.filter_cons, Xslt30Processor.setCwd,
          Xslt30Processor.setParameter, Xslt30Processor.new, Xslt30Processor.getParam,
          xpConfigured]
      · show engineCallEvents (transformTextOnce e t str s).events = _
        unfold transformTextOnce
        simp only [hr, hx]
        rw [if_pos trivial]
        rw [show (exceptText (.runtimeError "Error in XSLT transformation") str _ _ _).events =
          _ ++ [Event.logError ("Failed to transform XML content: " ++
              errStr (.runtimeError "Error in XSLT transformation")),
            Event.fileWrite errorLogPath
              (errorLogContent (.runtimeError "Error in XSLT transformation") str)] from rfl]
        rw [engineCallEvents_append, engineCallEvents_append, engineCallEvents_map_logError]
        simp [engineCallEvents, List.filter_cons, Xslt30Processor.setCwd,
          Xslt30Processor.setParameter, Xslt30Processor.new, Xslt30Processor.getParam]

/-- C9 witness: the equivalence and the duplicated engine invocation on
a concrete engine, transformer and input. -/
theorem C9_double_invocation_redundant_witness :
    ((transform engineOkW trW (.text "<x/>") emptyState).result =
      (transformOnce engineOkW trW (.text "<x/>") emptyState).result ∧
    (transform engineOkW trW (.text "<x/>") emptyState).state =
      (transformOnce engineOkW trW (.text "<x/>") emptyState).state) ∧
    engineOkW.run trW.xslt_path (tempPath emptyState.tempCounter) = .ok "RDF:/tmp/tmp0.xml" ∧
    (engineCallEvents (transform engineOkW trW (.text "<x/>") emptyState).events =
      [.engineCall trW.xslt_path (tempPath emptyState.tempCounter) (dirname trW.xslt_path)
        (some false),
        .engineCall trW.xslt_path (tempPath emptyState.tempCounter) (dirname trW.xslt_path)
          (some false)] ∧
    engineCallEvents (transformOnce engineOkW trW (.text "<x/>") emptyState).events =
      [.engineCall trW.xslt_path (tempPath emptyState.tempCounter) (dirname trW.xslt_path)
        (some false)]) :=
  ⟨C9_double_invocation_redundant.1 engineOkW trW (.text "<x/>") emptyState,
    by decide,
    C9_double_invocation_redundant.2 engineOkW trW "<x/>" emptyState "RDF:/tmp/tmp0.xml"
      (by decide)⟩

/-! ## Claim C10 -/

lemma transformText_path_only (e : Engine) (t1 t2 : XSLTTransformer)
    (h : t1.xslt_path = t2.xslt_path) (x : String) (s : TState) :
    transformText e t1 x s = transformText e t2 x s := by
  unfold transformText
  rw [h]

lemma transform_path_only (e : Engine) (t1 t2 : XSLTTransformer)
    (h : t1.xslt_path = t2.xslt_path) (str : String) (s : TState) :
    transform e t1 (.text str) s = transform e t2 (.text str) s :=
  transformText_path_only e t1 t2 h str s

/-- C10: running `transform` twice in sequence on the same Transformer
leaves `transformed_output.rdf` holding exactly the second call's
result, and the second call's entire outcome is independent of the
processor state the first call left behind (only the stylesheet path
matters). -/
theorem C10_last_write_wins (e : Engine) (t : XSLTTransformer) (str1 str2 : String)
    (s : TState) (r1 r2 : String)
    (hr1 : e.run t.xslt_path (tempPath s.tempCounter) = .ok r1)
    (hx1 : e.exceptionOccurred t.xslt_path (tempPath s.tempCounter) = false)
    (hr2 : e.run t.xslt_path (tempPath (s.tempCounter + 1)) = .ok r2)
    (hx2 : e.exceptionOccurred t.xslt_path (tempPath (s.tempCounter + 1)) = false) :
    (transform e (transform e t (.text str1) s).tr (.text str2)
        (transform e t (.text str1) s).state).result = .ok r2 ∧
    fsRead (transform e (transform e t (.text str1) s).tr (.text str2)
        (transform e t (.text str1) s).state).state.fs outputFilePath = some r2 ∧
    (∀ t' : XSLTTransformer, t'.xslt_path = t.xslt_path →
      transform e t' (.text str2) (transform e t (.text str1) s).state =
        transform e (transform e t (.text str1) s).tr (.text str2)
          (transform e t (.text str1) s).state) := by
  have ho1 : transform e t (.text str1) s =
      ⟨⟨t.xslt_path, ⟨false⟩, xpFinal t.xslt_path⟩,
        ⟨fsWrite (fsWrite (fsWrite s.fs inputRawPath str1) (tempPath s.tempCounter) str1)
          outputFilePath r1, s.tempCounter + 1⟩,
        [.fileWrite inputRawPath str1, .fileWrite (tempPath s.tempCounter) str1,
          .engineCall t.xslt_path (tempPath s.tempCounter) (dirname t.xslt_path) (some false),
          .engineCall t.xslt_path (tempPath s.tempCounter) (dirname t.xslt_path) (some false),
          .fileWrite outputFilePath r1],
        .ok r1⟩ := transformText_ok hr1 hx1
  rw [ho1]
  have hr2' : e.run (⟨t.xslt_path, ⟨false⟩, xpFinal t.xslt_path⟩ :
      XSLTTransformer).xslt_path (tempPath (s.tempCounter + 1)) = .ok r2 := hr2
  have hx2' : e.exceptionOccurred (⟨t.xslt_path, ⟨false⟩, xpFinal t.xslt_path⟩ :
      XSLTTransformer).xslt_path (tempPath (s.tempCounter + 1)) = false := hx2
  have ho2 : transformText e ⟨t.xslt_path, ⟨false⟩, xpFinal t.xslt_path⟩ str2
      ⟨fsWrite (fsWrite (fsWrite s.fs inputRawPath str1) (tempPath s.tempCounter) str1)
        outputFilePath r1, s.tempCounter + 1⟩ =
      ⟨⟨t.xslt_path, ⟨false⟩, xpFinal t.xslt_path⟩,
        ⟨fsWrite (fsWrite (fsWrite
          (fsWrite (fsWrite (fsWrite s.fs inputRawPath str1) (tempPath s.tempCounter) str1)
            outputFilePath r1) inputRawPath str2) (tempPath (s.tempCounter + 1)) str2)
          outputFilePath r2, s.tempCounter + 1 + 1⟩,
        [.fileWrite inputRawPath str2, .fileWrite (tempPath (s.tempCounter + 1)) str2,
          .engineCall t.xslt_path (tempPath (s.tempCounter + 1)) (dirname t.xslt_path)
            (some false),
          .engineCall t.xslt_path (tempPath (s.tempCounter + 1)) (dirname t.xslt_path)
            (some false),
          .fileWrite outputFilePath r2],
        .ok r2⟩ := transformText_ok hr2' hx2'
  refine ⟨?_, ?_, ?_⟩
  · show (transformText e ⟨t.xslt_path, ⟨false⟩, xpFinal t.xslt_path⟩ str2
      ⟨fsWrite (fsWrite (fsWrite s.fs inputRawPath str1) (tempPath s.tempCounter) str1)
        outputFilePath r1, s.tempCounter + 1⟩).result = .ok r2
    rw [ho2]
  · show fsRead (transformText e ⟨t.xslt_path, ⟨false⟩, xpFinal t.xslt_path⟩ str2
      ⟨fsWrite (fsWrite (fsWrite s.fs inputRawPath str1) (tempPath s.tempCounter) str1)
        outputFilePath r1, s.tempCounter + 1⟩).state.fs outputFilePath = some r2
    rw [ho2]
    exact fsRead_fsWrite_self _ _ _
  · intro t' ht'
    exact transform_path_only e t' _ ht' str2 _

/-- C10 witness: two sequential calls with an engine whose output names
the per-call temporary file, so the two results differ and the output
file holds the second. -/
theorem C10_last_write_wins_witness :
    engineOkW.run trW.xslt_path (tempPath 0) = .ok "RDF:/tmp/tmp0.xml" ∧
    engineOkW.run trW.xslt_path (tempPath 1) = .ok "RDF:/tmp/tmp1.xml" ∧
    ((transform engineOkW (transform engineOkW trW (.text "<a/>") emptyState).tr (.text "<b/>")
        (transform engineOkW trW (.text "<a/>") emptyState).state).result =
      .ok "RDF:/tmp/tmp1.xml" ∧
    fsRead (transform engineOkW (transform engineOkW trW (.text "<a/>") emptyState).tr
        (.text "<b/>")
        (transform engineOkW trW (.text "<a/>") emptyState).state).state.fs outputFilePath =
      some "RDF:/tmp/tmp1.xml" ∧
    (∀ t' : XSLTTransformer, t'.xslt_path = trW.xslt_path →
      transform engineOkW t' (.text "<b/>")
          (transform engineOkW trW (.text "<a/>") emptyState).state =
        transform engineOkW (transform engineOkW trW (.text "<a/>") emptyState).tr
          (.text "<b/>") (transform engineOkW trW (.text "<a/>") emptyState).state)) :=
  ⟨by decide, by decide,
    C10_last_write_wins engineOkW trW "<a/>" "<b/>" emptyState "RDF:/tmp/tmp0.xml"
      "RDF:/tmp/tmp1.xml" (by decide) (by decide) (by decide) (by decide)⟩

end IsoDcat
